import Mathlib

/-!
# Verification of `test_driven_planner` (`src/planner/db_access.py`, `src/planner/input_parser.py`)

Shallow embedding of the planner's database-access layer. Python values are
modelled by an inductive type `PyVal` (with a separate type `PyKey` for the
hashable values that may serve as dictionary keys); a Python `dict` is an
association list of key/value pairs in insertion order. Exceptions are
modelled with `Option`/`Except`: `none`/`Except.error` marks a raised
exception. The behaviour of the third-party MongoDB client is modelled as an
oracle (`MongoOracle`), and the filesystem seen by `_load_config` as a
`FileSystem` record.
-/

namespace Planner

/-- Embedding of `InitCode` from `db_access.py`: return codes of the `PlannerAccess`
initialization phase. -/
inductive InitCode where
  | OK
  | FAIL
  | DATABASE_UNREACHABLE
  | MISSING_CONFIG
  | BAD_CONFIG
deriving DecidableEq, Repr

/-- Embedding of `QueryCode` from `db_access.py`: return codes of `PlannerAccess` queries. -/
inductive QueryCode where
  | OK
  | FORMAT_CHECK_FAILED
  | UPDATE_FAILED
deriving DecidableEq, Repr

/-- A hashable Python value, as usable for a `dict` key. `kStr` is a value of
exact type `str`, `kDate` of exact type `datetime.date`, `kInt` of exact type
`int`; `kOther tag id` stands for a value of any other hashable type `tag`
(two such values are equal exactly when their `id`s agree). -/
inductive PyKey where
  | kStr (s : String)
  | kInt (n : Int)
  | kDate (y m d : Int)
  | kNone
  | kOther (tag : String) (id : Nat)
deriving DecidableEq, Repr

/-- A Python value. `vStr` has exact type `str`, `vDate` exact type
`datetime.date` (year, month, day), `vDict` exact type `dict` (an association
list in insertion order, keys distinct); `vOther tag id` is a value of any
other type named `tag`. -/
inductive PyVal where
  | vStr (s : String)
  | vInt (n : Int)
  | vDate (y m d : Int)
  | vNone
  | vDict (entries : List (PyKey × PyVal))
  | vOther (tag : String) (id : Nat)

/-- Python `type(k) is str` on a dictionary key. -/
def keyIsStr : PyKey → Bool
  | .kStr _ => true
  | _ => false

/-- Python `type(v) is date` (`datetime.date`, exact type). -/
def valIsDate : PyVal → Bool
  | .vDate _ _ _ => true
  | _ => false

/-- Python `type(v) is str` (exact type). -/
def valIsStr : PyVal → Bool
  | .vStr _ => true
  | _ => false

/-- Python `type(v) is dict` (exact type). -/
def valIsDict : PyVal → Bool
  | .vDict _ => true
  | _ => false

/-- Python `v == ""`: true exactly for the empty string (a non-`str` value
compares unequal to `""`). -/
def valEqEmptyStr : PyVal → Bool
  | .vStr s => s == ""
  | _ => false

/-- Python `d[k]` on a dict represented as an association list: the value at
key `k`, or `none` for a raised `KeyError`. -/
def dictGet : List (PyKey × PyVal) → PyKey → Option PyVal
  | [], _ => none
  | (k', v) :: rest, k => if k' = k then some v else dictGet rest k

/-- Embedding of `list(d.keys())`: the keys of the dict, in insertion order. -/
def dictKeys (entries : List (PyKey × PyVal)) : List PyKey :=
  entries.map Prod.fst

/-- Embedding of `PlannerAccess._task_key_check` from `db_access.py`, on the entries of the
dict: exactly two keys, every key of exact type `str`, and both `"task_desc"`
and `"date"` among the keys (order does not matter). -/
def task_key_check (entries : List (PyKey × PyVal)) : Bool :=
  let fields := dictKeys entries
  if fields.length != 2 then
    false
  else if !(fields.all keyIsStr) then
    false
  else
    decide (PyKey.kStr "task_desc" ∈ fields) && decide (PyKey.kStr "date" ∈ fields)

/-- Embedding of `PlannerAccess._task_value_check` from `db_access.py`, on the entries of
the dict. `task_query["date"]` must have exact type `date`,
`task_query["task_desc"]` exact type `str` and be non-empty. A failing
lookup raises `KeyError`, modelled as `none`; a returned Python boolean is
`some b`. -/
def task_value_check (entries : List (PyKey × PyVal)) : Option Bool :=
  match dictGet entries (PyKey.kStr "date") with
  | none => none
  | some dv =>
    if !valIsDate dv then
      some false
    else
      match dictGet entries (PyKey.kStr "task_desc") with
      | none => none
      | some tv =>
        if !valIsStr tv then
          some false
        else if valEqEmptyStr tv then
          some false
        else
          some true

/-- Embedding of `PlannerAccess.validate_task_query` from `db_access.py`: reject a
non-`dict` outright, then `_task_key_check(q) and _task_value_check(q)` with
Python's short-circuiting `and` (the value check runs only after the key
check succeeded). -/
def validate_task_query (q : PyVal) : Option Bool :=
  match q with
  | .vDict entries =>
    if task_key_check entries then task_value_check entries else some false
  | _ => some false

/-- The filesystem state `PlannerAccess._load_config` observes: whether
`os.path.exists("config.json")` holds, whether `open("config.json", "r")`
nevertheless raises `FileNotFoundError` (the file may disappear between the
two calls), and what `json.load` yields on the file's contents (`none` for a
`JSONDecodeError`, `some v` for the parsed value). -/
structure FileSystem where
  configExists : Bool
  openRaisesFNF : Bool
  parsed : Option PyVal

/-- Embedding of `PlannerAccess._load_config` from `db_access.py`. Returns the `InitCode`
and the resulting `self.config` attribute (`none` while it is still unset):
`MISSING_CONFIG` when the file is absent or opening raises
`FileNotFoundError`, `BAD_CONFIG` when parsing raises `JSONDecodeError`, and
otherwise `OK` with `self.config` set to the parsed value. -/
def load_config (fs : FileSystem) : InitCode × Option PyVal :=
  if !fs.configExists then
    (InitCode.MISSING_CONFIG, none)
  else
    if fs.openRaisesFNF then
      (InitCode.MISSING_CONFIG, none)
    else
      match fs.parsed with
      | none => (InitCode.BAD_CONFIG, none)
      | some v => (InitCode.OK, some v)

/-- Outcome of evaluating `MongoClient(self.config["uri"],
serverSelectionTimeoutMS=self.config["timeout_ms"])`: it may raise
`TypeError` (the one exception `_connect` catches there), raise some other
exception (the repository's own tests exhibit `errors.InvalidURI`,
`ValueError` and `errors.ConfigurationError` from `MongoClient`), or return
a client. -/
inductive CtorOutcome where
  | raisesTypeError
  | raisesOther (exc : String)
  | ok
deriving DecidableEq, Repr

/-- Outcome of `self.client.admin.command("ping")`: it may raise
`ServerSelectionTimeoutError` (the one exception `_connect` catches there),
raise some other exception, or return a reply document; `okIsOne` records
whether the reply's `"ok"` field compares equal to `1.0`. -/
inductive PingOutcome where
  | raisesSST
  | raisesOther (exc : String)
  | reply (okIsOne : Bool)
deriving DecidableEq, Repr

/-- The behaviour of the third-party MongoDB client during `_connect`,
modelled as an oracle: what the constructor does and what the ping does. -/
structure MongoOracle where
  ctor : CtorOutcome
  ping : PingOutcome
deriving DecidableEq, Repr

/-- Embedding of `PlannerAccess._connect` from `db_access.py`. First component: the
returned `InitCode` (`Except.error e` for an exception `e` that propagates
uncaught out of `_connect`); second component: whether `self.client` was
assigned. `except TypeError` around the constructor yields `BAD_CONFIG`;
`except errors.ServerSelectionTimeoutError` around the ping, and a ping
reply whose `"ok"` field differs from `1.0`, yield `DATABASE_UNREACHABLE`;
a successful ping with `ok == 1.0` yields `OK`. -/
def connect (o : MongoOracle) : Except String InitCode × Bool :=
  match o.ctor with
  | .raisesTypeError => (Except.ok InitCode.BAD_CONFIG, false)
  | .raisesOther e => (Except.error e, false)
  | .ok =>
    match o.ping with
    | .raisesSST => (Except.ok InitCode.DATABASE_UNREACHABLE, true)
    | .raisesOther e => (Except.error e, true)
    | .reply okIsOne =>
      if okIsOne then (Except.ok InitCode.OK, true)
      else (Except.ok InitCode.DATABASE_UNREACHABLE, true)

/-- The attributes of a constructed `PlannerAccess` object. `config` is
`none` while `self.config` was never assigned, and `clientSet` records
whether `self.client` was assigned. -/
structure PlannerAccess where
  config : Option PyVal
  clientSet : Bool
  init_state : InitCode
  db_name : String
  col_name : String

/-- The steps `PlannerAccess.__init__` may take, in execution order. -/
inductive InitEvent where
  | loadConfig
  | connectClient
deriving DecidableEq, Repr

/-- Embedding of `PlannerAccess.__init__` from `db_access.py`:
`if self._load_config() == InitCode.OK and self._connect() == InitCode.OK`
with Python's short-circuiting `and`, then `self.init_state` becomes
`InitCode.OK` or `InitCode.FAIL`. First component: the constructed object,
or `Except.error e` when `_connect` raised `e` uncaught; second component:
the trace of steps taken, in order. -/
def plannerInit (fs : FileSystem) (o : MongoOracle)
    (db_name : String := "planner_db") (col_name : String := "planner_col") :
    Except String PlannerAccess × List InitEvent :=
  let lc := load_config fs
  if lc.1 = InitCode.OK then
    match connect o with
    | (Except.error e, _) => (Except.error e, [InitEvent.loadConfig, InitEvent.connectClient])
    | (Except.ok cn, cset) =>
      (Except.ok
        { config := lc.2
          clientSet := cset
          init_state := if cn = InitCode.OK then InitCode.OK else InitCode.FAIL
          db_name := db_name
          col_name := col_name },
       [InitEvent.loadConfig, InitEvent.connectClient])
  else
    (Except.ok
      { config := lc.2
        clientSet := false
        init_state := InitCode.FAIL
        db_name := db_name
        col_name := col_name },
     [InitEvent.loadConfig])

/-- Embedding of `PlannerAccess.get_initialization_code` from `db_access.py`: returns
`self.init_state`. -/
def get_initialization_code (p : PlannerAccess) : InitCode :=
  p.init_state

/-- Embedding of `PlannerAccess.insert_task`: an unimplemented stub (`pass`). It returns
Python `None` (`none : Option QueryCode`) and leaves the object unchanged. -/
def insert_task (p : PlannerAccess) (task : PyVal) : PlannerAccess × Option QueryCode :=
  (p, none)

/-- Embedding of `PlannerAccess.delete_task`: an unimplemented stub (`pass`). -/
def delete_task (p : PlannerAccess) (task : PyVal) : PlannerAccess × Option QueryCode :=
  (p, none)

/-- Embedding of `PlannerAccess.update_task`: an unimplemented stub (`pass`). -/
def update_task (p : PlannerAccess) (task new_task : PyVal) :
    PlannerAccess × Option QueryCode :=
  (p, none)

/-- Embedding of `PlannerAccess.get_tasks`: an unimplemented stub (`pass`). -/
def get_tasks (p : PlannerAccess) (d : PyVal) : PlannerAccess × Option QueryCode :=
  (p, none)

/-- Embedding of `PlannerAccess.delete_date_tasks`: an unimplemented stub (`pass`). -/
def delete_date_tasks (p : PlannerAccess) (d : PyVal) : PlannerAccess × Option QueryCode :=
  (p, none)

/-- Embedding of `PlannerAccess.delete_all_tasks`: an unimplemented stub (`pass`). -/
def delete_all_tasks (p : PlannerAccess) : PlannerAccess × Option QueryCode :=
  (p, none)

/-- A top-level item of a Python module. -/
inductive PyModuleItem where
  | docstring (text : String)
  | funcDef (name : String)
  | classDef (name : String)
  | importStmt (name : String)
  | otherStmt (desc : String)
deriving DecidableEq, Repr

/-- Embedding of `src/planner/input_parser.py`, item by item: its whole body is a single
module docstring. -/
def input_parser_module : List PyModuleItem :=
  [PyModuleItem.docstring
    "Process user arguments passed to the planner. Inpurt parser wants to understand how the user wishes to use the planner. The user may want to: add/remove/edit tasks to the planner; list active tasks for a particular day; list all created tasks, including inactive ones; toggle task state (complete or not complete); view statistics."]

/-- Whether a module item is a bare docstring. -/
def isDocstring : PyModuleItem → Bool
  | .docstring _ => true
  | _ => false

/-- The names a module item binds in the module's namespace when the module
is imported (functions, classes, imported names); a docstring binds none. -/
def itemBindings : PyModuleItem → List String
  | .docstring _ => []
  | .funcDef n => [n]
  | .classDef n => [n]
  | .importStmt n => [n]
  | .otherStmt d => [d]

/-- All names a module exposes after import. -/
def moduleBindings (m : List PyModuleItem) : List String :=
  (m.map itemBindings).flatten

/-! ## Spec-side predicates

These follow the specification's words, for comparison with the embedded
code: "a dictionary with exactly two keys, both keys are strings named
`date` and `task_desc` (in either order), the value under `date` has type
`datetime.date`, and the value under `task_desc` has type `str`". -/

/-- Spec-side predicate, in the specification's words: a dictionary with
exactly the two string keys `"date"` and `"task_desc"` (in either order),
whose `"date"` value is a `datetime.date` and whose `"task_desc"` value is a
`str`. -/
def specWellFormedQuery (q : PyVal) : Prop :=
  ∃ y m d s,
    q = PyVal.vDict
        [(PyKey.kStr "date", PyVal.vDate y m d), (PyKey.kStr "task_desc", PyVal.vStr s)] ∨
    q = PyVal.vDict
        [(PyKey.kStr "task_desc", PyVal.vStr s), (PyKey.kStr "date", PyVal.vDate y m d)]

/-- Spec-side predicate amended by what the code additionally requires: the
`"task_desc"` string must also be non-empty. -/
def specWellFormedQueryNonempty (q : PyVal) : Prop :=
  ∃ y m d s, s ≠ "" ∧
    (q = PyVal.vDict
        [(PyKey.kStr "date", PyVal.vDate y m d), (PyKey.kStr "task_desc", PyVal.vStr s)] ∨
     q = PyVal.vDict
        [(PyKey.kStr "task_desc", PyVal.vStr s), (PyKey.kStr "date", PyVal.vDate y m d)])

/-! ## Helper lemmas -/

/-- Unfolding of the key check on a two-entry dict: both keys of type `str`,
and `"task_desc"` and `"date"` each among the keys. -/
theorem task_key_check_pair (k1 k2 : PyKey) (v1 v2 : PyVal) :
    task_key_check [(k1, v1), (k2, v2)] = true ↔
      (keyIsStr k1 = true ∧ keyIsStr k2 = true) ∧
      (PyKey.kStr "task_desc" = k1 ∨ PyKey.kStr "task_desc" = k2) ∧
      (PyKey.kStr "date" = k1 ∨ PyKey.kStr "date" = k2) := by
  simp [task_key_check, dictKeys, and_assoc]

/-- The key check succeeds exactly on dicts whose key list is
`["date", "task_desc"]` or `["task_desc", "date"]`. -/
theorem task_key_check_iff (entries : List (PyKey × PyVal)) :
    task_key_check entries = true ↔
      dictKeys entries = [PyKey.kStr "date", PyKey.kStr "task_desc"] ∨
      dictKeys entries = [PyKey.kStr "task_desc", PyKey.kStr "date"] := by
  rcases entries with _ | ⟨⟨k1, v1⟩, entries⟩
  · simp [task_key_check, dictKeys]
  rcases entries with _ | ⟨⟨k2, v2⟩, entries⟩
  · simp [task_key_check, dictKeys]
  rcases entries with _ | ⟨⟨k3, v3⟩, entries⟩
  · rw [task_key_check_pair]
    constructor
    · rintro ⟨⟨hs1, hs2⟩, (h | h), (h' | h')⟩ <;> subst_vars
      · exact absurd h' (by decide)
      · right
        simp [dictKeys]
      · left
        simp [dictKeys]
      · exact absurd h' (by decide)
    · rintro (h | h) <;>
        (simp only [dictKeys, List.map_cons, List.map_nil, List.cons.injEq, and_true] at h
         obtain ⟨rfl, rfl⟩ := h) <;> decide
  · simp [task_key_check, dictKeys]

/-- A dict whose key list is `[k1, k2]` consists of exactly two entries with
those keys. -/
theorem entries_of_keys (entries : List (PyKey × PyVal)) (k1 k2 : PyKey)
    (h : dictKeys entries = [k1, k2]) :
    ∃ w1 w2, entries = [(k1, w1), (k2, w2)] := by
  rcases entries with _ | ⟨⟨a1, w1⟩, _ | ⟨⟨a2, w2⟩, rest⟩⟩
  · simp [dictKeys] at h
  · simp [dictKeys] at h
  · simp only [dictKeys, List.map_cons, List.cons.injEq, List.map_eq_nil_iff] at h
    obtain ⟨rfl, rfl, rfl⟩ := h
    exact ⟨w1, w2, rfl⟩

/-- Computation of the value check on a dict listing `"date"` first. -/
theorem task_value_check_date_first (w1 w2 : PyVal) :
    task_value_check [(PyKey.kStr "date", w1), (PyKey.kStr "task_desc", w2)] =
      (if !valIsDate w1 then some false
       else if !valIsStr w2 then some false
       else if valEqEmptyStr w2 then some false
       else some true) := by
  simp [task_value_check, dictGet]

/-- Computation of the value check on a dict listing `"task_desc"` first. -/
theorem task_value_check_desc_first (w1 w2 : PyVal) :
    task_value_check [(PyKey.kStr "task_desc", w1), (PyKey.kStr "date", w2)] =
      (if !valIsDate w2 then some false
       else if !valIsStr w1 then some false
       else if valEqEmptyStr w1 then some false
       else some true) := by
  simp [task_value_check, dictGet]

/-- Whatever the two values, the value check on a dict with the two expected
keys returns a boolean (never raises `KeyError`). -/
theorem task_value_check_date_first_total (w1 w2 : PyVal) :
    ∃ b, task_value_check [(PyKey.kStr "date", w1), (PyKey.kStr "task_desc", w2)] = some b := by
  rw [task_value_check_date_first]
  cases hb1 : valIsDate w1 <;> cases hb2 : valIsStr w2 <;> cases hb3 : valEqEmptyStr w2 <;>
    simp [hb1, hb2, hb3]

/-- Whatever the two values, the value check on a dict with the two expected
keys in the other order returns a boolean (never raises `KeyError`). -/
theorem task_value_check_desc_first_total (w1 w2 : PyVal) :
    ∃ b, task_value_check [(PyKey.kStr "task_desc", w1), (PyKey.kStr "date", w2)] = some b := by
  rw [task_value_check_desc_first]
  cases hb1 : valIsDate w2 <;> cases hb2 : valIsStr w1 <;> cases hb3 : valEqEmptyStr w1 <;>
    simp [hb1, hb2, hb3]

/-! ## Claim theorems -/

/-- C1, counterexample: the dictionary `{"date": date(2025, 7, 25),
"task_desc": ""}` has exactly the two correctly-named, correctly-typed
fields of the claim, yet `validate_task_query` returns `False` on it — the
claimed "if and only if" fails. -/
theorem validate_task_query_rejects_wellformed_query :
    specWellFormedQuery (PyVal.vDict
      [(PyKey.kStr "date", PyVal.vDate 2025 7 25), (PyKey.kStr "task_desc", PyVal.vStr "")]) ∧
    validate_task_query (PyVal.vDict
      [(PyKey.kStr "date", PyVal.vDate 2025 7 25), (PyKey.kStr "task_desc", PyVal.vStr "")]) =
      some false :=
  ⟨⟨2025, 7, 25, "", Or.inl rfl⟩, rfl⟩

/-- C1, amended: `validate_task_query(q)` returns `True` exactly when `q` is
a dictionary with the two string keys `"date"` and `"task_desc"` (in either
order), the `"date"` value is a `datetime.date`, and the `"task_desc"` value
is a non-empty `str`. -/
theorem validate_task_query_iff_wellformed_nonempty (q : PyVal) :
    validate_task_query q = some true ↔ specWellFormedQueryNonempty q := by
  constructor
  · intro h
    rcases q with s | n | ⟨y, m, d⟩ | _ | entries | ⟨tag, i⟩
    · simp [validate_task_query] at h
    · simp [validate_task_query] at h
    · simp [validate_task_query] at h
    · simp [validate_task_query] at h
    · by_cases hk : task_key_check entries = true
      · simp only [validate_task_query, if_pos hk] at h
        rcases (task_key_check_iff entries).1 hk with hkeys | hkeys <;>
          obtain ⟨w1, w2, rfl⟩ := entries_of_keys _ _ _ hkeys
        · rw [task_value_check_date_first] at h
          cases w1 <;> cases w2 <;> simp [valIsDate, valIsStr, valEqEmptyStr] at h
          rename_i y m d s
          exact ⟨y, m, d, s, h, Or.inl rfl⟩
        · rw [task_value_check_desc_first] at h
          cases w1 <;> cases w2 <;> simp [valIsDate, valIsStr, valEqEmptyStr] at h
          rename_i s y m d
          exact ⟨y, m, d, s, h, Or.inr rfl⟩
      · simp [validate_task_query, hk] at h
    · simp [validate_task_query] at h
  · rintro ⟨y, m, d, s, hs, rfl | rfl⟩
    · have hk : task_key_check
          [(PyKey.kStr "date", PyVal.vDate y m d), (PyKey.kStr "task_desc", PyVal.vStr s)] = true := by
        rw [task_key_check_pair]
        decide
      simp only [validate_task_query, if_pos hk, task_value_check_date_first]
      simp [valIsDate, valIsStr, valEqEmptyStr, hs]
    · have hk : task_key_check
          [(PyKey.kStr "task_desc", PyVal.vStr s), (PyKey.kStr "date", PyVal.vDate y m d)] = true := by
        rw [task_key_check_pair]
        decide
      simp only [validate_task_query, if_pos hk, task_value_check_desc_first]
      simp [valIsDate, valIsStr, valEqEmptyStr, hs]

/-- C8: on every Python value, `validate_task_query` returns a boolean and
raises no exception — a non-`dict` input is rejected at the type guard, and
the dictionary indexing in `_task_value_check` cannot raise `KeyError`
because it runs only after `_task_key_check` confirmed both keys present. -/
theorem validate_task_query_never_raises (q : PyVal) :
    (∃ b, validate_task_query q = some b) ∧
    (valIsDict q = false → validate_task_query q = some false) := by
  rcases q with s | n | ⟨y, m, d⟩ | _ | entries | ⟨tag, i⟩
  · exact ⟨⟨false, rfl⟩, fun _ => rfl⟩
  · exact ⟨⟨false, rfl⟩, fun _ => rfl⟩
  · exact ⟨⟨false, rfl⟩, fun _ => rfl⟩
  · exact ⟨⟨false, rfl⟩, fun _ => rfl⟩
  · refine ⟨?_, by simp [valIsDict]⟩
    by_cases hk : task_key_check entries = true
    · simp only [validate_task_query, if_pos hk]
      rcases (task_key_check_iff entries).1 hk with hkeys | hkeys <;>
        obtain ⟨w1, w2, rfl⟩ := entries_of_keys _ _ _ hkeys
      · exact task_value_check_date_first_total w1 w2
      · exact task_value_check_desc_first_total w1 w2
    · exact ⟨false, by simp [validate_task_query, hk]⟩
  · exact ⟨⟨false, rfl⟩, fun _ => rfl⟩

/-- C9: a query whose keys and value types are all correct is still rejected
when the task description is the empty string: for every `datetime.date`
value, `validate_task_query` returns `False` on
`{"date": d, "task_desc": ""}`. -/
theorem validate_task_query_rejects_empty_desc (y m d : Int) :
    validate_task_query (PyVal.vDict
      [(PyKey.kStr "date", PyVal.vDate y m d), (PyKey.kStr "task_desc", PyVal.vStr "")]) =
      some false := rfl

/-- C10: `validate_task_query` is insensitive to the order of the two keys:
for every date `d` and string `s` it returns the same result on
`{"date": d, "task_desc": s}` and on `{"task_desc": s, "date": d}`. -/
theorem validate_task_query_key_order_irrelevant (y m d : Int) (s : String) :
    validate_task_query (PyVal.vDict
      [(PyKey.kStr "date", PyVal.vDate y m d), (PyKey.kStr "task_desc", PyVal.vStr s)]) =
    validate_task_query (PyVal.vDict
      [(PyKey.kStr "task_desc", PyVal.vStr s), (PyKey.kStr "date", PyVal.vDate y m d)]) := rfl

/-- C2: whenever `__init__` completes, `get_initialization_code()` returns
`InitCode.OK` exactly when both `_load_config()` and `_connect()` returned
`InitCode.OK`, and `InitCode.FAIL` in every other case — never
`DATABASE_UNREACHABLE`, `MISSING_CONFIG` or `BAD_CONFIG`. -/
theorem get_initialization_code_ok_or_fail (fs : FileSystem) (o : MongoOracle)
    (dn cn : String) (p : PlannerAccess) (h : (plannerInit fs o dn cn).1 = Except.ok p) :
    (get_initialization_code p = InitCode.OK ↔
      ((load_config fs).1 = InitCode.OK ∧ (connect o).1 = Except.ok InitCode.OK)) ∧
    (get_initialization_code p = InitCode.OK ∨ get_initialization_code p = InitCode.FAIL) := by
  unfold plannerInit at h
  by_cases hl : (load_config fs).1 = InitCode.OK
  · rw [if_pos hl] at h
    rcases hco : connect o with ⟨res, cset⟩
    rw [hco] at h
    cases res with
    | error e => simp at h
    | ok cn' =>
      simp only [Except.ok.injEq] at h
      subst h
      by_cases hcn : cn' = InitCode.OK <;>
        simp [get_initialization_code, hl, hco, hcn]
  · rw [if_neg hl] at h
    simp only [Except.ok.injEq] at h
    subst h
    simp [get_initialization_code, hl]

/-- A filesystem on which `config.json` exists and parses (to the empty JSON
object). -/
def fsGood : FileSystem :=
  { configExists := true, openRaisesFNF := false, parsed := some (PyVal.vDict []) }

/-- An oracle on which the client constructs and the ping replies with
`ok == 1.0`. -/
def oracleGood : MongoOracle :=
  { ctor := CtorOutcome.ok, ping := PingOutcome.reply true }

/-- The object `PlannerAccess()` builds on `fsGood` and `oracleGood`. -/
def plannerGood : PlannerAccess :=
  { config := some (PyVal.vDict []), clientSet := true, init_state := InitCode.OK,
    db_name := "planner_db", col_name := "planner_col" }

/-- Witness for C2 at a concrete filesystem and oracle. -/
theorem get_initialization_code_ok_or_fail_witness :
    (get_initialization_code plannerGood = InitCode.OK ↔
      ((load_config fsGood).1 = InitCode.OK ∧ (connect oracleGood).1 = Except.ok InitCode.OK)) ∧
    (get_initialization_code plannerGood = InitCode.OK ∨
      get_initialization_code plannerGood = InitCode.FAIL) :=
  get_initialization_code_ok_or_fail fsGood oracleGood "planner_db" "planner_col"
    plannerGood rfl

/-- C3: `_load_config()` returns `MISSING_CONFIG` exactly when `config.json`
does not exist or opening it raises `FileNotFoundError`; `BAD_CONFIG`
exactly when the file exists but its contents fail to parse as JSON; and
`OK`, with `self.config` set to the parsed value, exactly otherwise. -/
theorem load_config_cases (fs : FileSystem) :
    ((load_config fs).1 = InitCode.MISSING_CONFIG ↔
      (fs.configExists = false ∨ fs.openRaisesFNF = true)) ∧
    ((load_config fs).1 = InitCode.BAD_CONFIG ↔
      (fs.configExists = true ∧ fs.openRaisesFNF = false ∧ fs.parsed = none)) ∧
    (∀ v, load_config fs = (InitCode.OK, some v) ↔
      (fs.configExists = true ∧ fs.openRaisesFNF = false ∧ fs.parsed = some v)) := by
  obtain ⟨ce, fnf, pr⟩ := fs
  cases ce <;> cases fnf <;> cases pr <;> simp [load_config]

/-- C4, counterexample: on `{"uri": "", "timeout_ms": 2000}` the client
constructor raises `errors.ConfigurationError` (the repository's own
`test_config_error` shows `MongoClient("")` does exactly that) — a case that
is neither a `TypeError` at construction, nor a ping timeout, nor a bad
`"ok"` field — and `_connect` propagates it uncaught instead of returning
any `InitCode`. -/
theorem connect_propagates_configuration_error :
    CtorOutcome.raisesOther "ConfigurationError" ≠ CtorOutcome.raisesTypeError ∧
    (connect
      { ctor := CtorOutcome.raisesOther "ConfigurationError",
        ping := PingOutcome.reply true }).1 = Except.error "ConfigurationError" ∧
    (connect
      { ctor := CtorOutcome.raisesOther "ConfigurationError",
        ping := PingOutcome.reply true }).1 ≠ Except.ok InitCode.OK :=
  ⟨by simp, rfl, by simp [connect]⟩

/-- C4, amended: `_connect()` returns `BAD_CONFIG` exactly when constructing
the client raises `TypeError`; `DATABASE_UNREACHABLE` exactly when the
construction succeeds and the ping raises `ServerSelectionTimeoutError` or
replies with an `"ok"` field differing from `1.0`; `OK` exactly when the
construction succeeds and the ping replies with `ok == 1.0`; and any other
exception of the client — at construction or at the ping — propagates
uncaught instead of yielding a code. -/
theorem connect_cases (o : MongoOracle) :
    ((connect o).1 = Except.ok InitCode.BAD_CONFIG ↔
      o.ctor = CtorOutcome.raisesTypeError) ∧
    ((connect o).1 = Except.ok InitCode.DATABASE_UNREACHABLE ↔
      (o.ctor = CtorOutcome.ok ∧
        (o.ping = PingOutcome.raisesSST ∨ o.ping = PingOutcome.reply false))) ∧
    ((connect o).1 = Except.ok InitCode.OK ↔
      (o.ctor = CtorOutcome.ok ∧ o.ping = PingOutcome.reply true)) ∧
    (∀ e, (connect o).1 = Except.error e ↔
      (o.ctor = CtorOutcome.raisesOther e ∨
        (o.ctor = CtorOutcome.ok ∧ o.ping = PingOutcome.raisesOther e))) := by
  obtain ⟨c, pg⟩ := o
  cases c <;> cases pg <;>
    first
    | (rename_i b
       cases b <;> simp [connect])
    | simp [connect]

/-- C5: each of the six query methods is a stub: it returns `None`, yields
no `QueryCode`, and leaves the object — every field of it — unchanged. -/
theorem query_methods_are_stubs (p : PlannerAccess) (task new_task d : PyVal) :
    insert_task p task = (p, none) ∧
    delete_task p task = (p, none) ∧
    update_task p task new_task = (p, none) ∧
    get_tasks p d = (p, none) ∧
    delete_date_tasks p d = (p, none) ∧
    delete_all_tasks p = (p, none) :=
  ⟨rfl, rfl, rfl, rfl, rfl, rfl⟩

/-- C6: `__init__` always performs the configuration load first — its trace
is either the load alone or the load followed by the connection attempt —
and when the load does not return `OK`, the connection step never happens,
no client is constructed, and `self.client` stays unset. -/
theorem plannerInit_load_gates_connect (fs : FileSystem) (o : MongoOracle)
    (dn cn : String) :
    ((plannerInit fs o dn cn).2 = [InitEvent.loadConfig] ∨
     (plannerInit fs o dn cn).2 = [InitEvent.loadConfig, InitEvent.connectClient]) ∧
    ((load_config fs).1 ≠ InitCode.OK →
      (plannerInit fs o dn cn).2 = [InitEvent.loadConfig] ∧
      (plannerInit fs o dn cn).1 =
        Except.ok
          { config := (load_config fs).2, clientSet := false,
            init_state := InitCode.FAIL, db_name := dn, col_name := cn }) := by
  unfold plannerInit
  by_cases hl : (load_config fs).1 = InitCode.OK
  · rw [if_pos hl]
    refine ⟨?_, fun h => absurd hl h⟩
    rcases connect o with ⟨res, cset⟩
    cases res <;> simp
  · rw [if_neg hl]
    exact ⟨Or.inl rfl, fun _ => ⟨rfl, rfl⟩⟩

/-- C7: the module `input_parser` consists of its docstring alone — it
defines no function, class or other executable statement, and importing it
binds no name. -/
theorem input_parser_module_is_empty :
    input_parser_module.all isDocstring = true ∧
    input_parser_module.length = 1 ∧
    moduleBindings input_parser_module = [] :=
  ⟨rfl, rfl, rfl⟩

end Planner
